import Mathlib

/-!
Shallow embedding of `src/Assignment.py`, a single-file Flask service that
exposes four POST endpoints over a Netmiko SSH session to one network device.

Modelling choices, function by function:

* Python values reaching the handlers from `request.json` are modelled by
  `PyVal` (JSON scalars; `PyVal.none` is Python `None`, also the result of
  `dict.get` on a missing key).  `pyStr v` is Python `str(v)` as used by
  f-string interpolation.
* The parsed request body (`data = request.json`) is `ReqData`: either the
  parsed JSON object (a dict, so keys are unique) or `noJson`, modelling a
  request whose body did not parse to a dict (`data` is then `None` and
  `data.get(...)` raises `AttributeError`).
* One SSH interaction (the whole `with ConnectHandler(...)` block: connect,
  authenticate, run the command(s), close) is an oracle from the command(s)
  sent to an `SshResult`: either the captured output text, or an exception
  with a message raised anywhere inside the `try` block.
* Python exception flow is `Except String`: `try ... except Exception as e`
  becomes a `match` on the `Except` value, the `except` arm building the
  500 response exactly as line 48 of the source does.
* `format_response` (lines 144-146) is embedded on dynamic input: on a
  `str` it performs the list comprehension, on any other value the
  attribute lookup `.split` raises `AttributeError`.
-/

set_option autoImplicit false

namespace Assignment

/-- A Python/JSON scalar value as it can appear in a parsed request body or
as the result of `dict.get` (Python `None` on a missing key). -/
inductive PyVal where
  | none
  | str (s : String)
  | int (n : Int)
  | bool (b : Bool)
  deriving DecidableEq, Repr

/-- Python `str(v)`, as performed by f-string interpolation such as
`f'interface Loopback{loopback_number}'` in the source. -/
def pyStr : PyVal → String
  | .none => "None"
  | .str s => s
  | .int n => toString n
  | .bool b => if b then "True" else "False"

/-- Python type name of a value, used in `AttributeError` messages. -/
def pyTypeName : PyVal → String
  | .none => "NoneType"
  | .str _ => "str"
  | .int _ => "int"
  | .bool _ => "bool"

/-- The value of `data = request.json` inside a handler: the parsed JSON
object (a Python dict, so keys are unique; modelled as an association
list), or `noJson` when no JSON object was supplied and `data` is `None`. -/
inductive ReqData where
  | noJson
  | obj (fields : List (String × PyVal))

/-- `data.get(key)` from the source handlers.  On a dict it returns the
stored value, or `None` when the key is absent; on `None` the attribute
lookup `.get` raises `AttributeError` (modelled as `Except.error`). -/
def pyGet : ReqData → String → Except String PyVal
  | .noJson, _ => .error "AttributeError: NoneType object has no attribute get"
  | .obj fields, key => .ok (((fields.lookup key).getD PyVal.none))

/-- Outcome of one SSH interaction with the device: the `with
ConnectHandler(**device_info)` block either captures output text, or some
exception (unreachable host, failed authentication, rejected command) is
raised inside the `try` block with message `msg`. -/
inductive SshResult where
  | output (text : String)
  | raises (msg : String)

/-- `send_netmiko_request` (source lines 120-128): runs one command over a
fresh SSH session and returns the output; any exception is caught and
converted to the string `Netmiko Error: ...`.  `dev` is the oracle for the
device interaction, applied to the command the handler passed in. -/
def send_netmiko_request (dev : PyVal → SshResult) (command : PyVal) : String :=
  match dev command with
  | .output text => text
  | .raises msg => "Netmiko Error: " ++ msg

/-- `send_netmiko_config` (source lines 132-141): runs an ordered command
list via `send_config_set` and returns the combined output; any exception
is caught and converted to the string `Netmiko Error: ...`. -/
def send_netmiko_config (dev : List String → SshResult) (config_commands : List String) : String :=
  match dev config_commands with
  | .output text => text
  | .raises msg => "Netmiko Error: " ++ msg

/-- Python whitespace characters recognised by `str.strip()` (ASCII part:
space, tab, newline, carriage return, vertical tab, form feed). -/
def pyIsSpace (c : Char) : Bool :=
  c == ' ' || c == '\t' || c == '\n' || c == '\r' || c == '\x0b' || c == '\x0c'

/-- Python `line.strip()`: remove leading and trailing whitespace. -/
def pyStrip (s : String) : String :=
  String.mk (((s.data.dropWhile pyIsSpace).reverse.dropWhile pyIsSpace).reverse)

/-- Helper for `pySplitNl`: split a character list on `\n`. -/
def splitNlAux : List Char → List Char → List (List Char)
  | [], acc => [acc.reverse]
  | c :: cs, acc =>
    if c == '\n' then acc.reverse :: splitNlAux cs []
    else splitNlAux cs (c :: acc)

/-- Python `s.split('\n')`.  In particular `"".split('\n') == [""]`. -/
def pySplitNl (s : String) : List String :=
  (splitNlAux s.data []).map String.mk

/-- The line list built by `format_response` (source line 145):
`[line.strip() for line in netmiko_response.split('\n') if line.strip()]`.
Filtering on the stripped line being non-empty and emitting the stripped
line is written as map-then-filter, which computes the same list. -/
def format_lines (s : String) : List String :=
  ((pySplitNl s).map pyStrip).filter (fun line => line != "")

/-- A JSON value, as serialised by `jsonify`. -/
inductive Json where
  | str (s : String)
  | arr (elems : List Json)
  | obj (fields : List (String × Json))

/-- The JSON object `{'netmiko_response': lines}` returned by
`format_response` on string input `s`. -/
def success_body (s : String) : Json :=
  Json.obj [("netmiko_response", Json.arr ((format_lines s).map Json.str))]

/-- `format_response` (source lines 144-146) on a dynamic argument.  On a
string it builds `{'netmiko_response': lines}`; on any other value the
attribute access `netmiko_response.split` raises `AttributeError`
(modelled as `Except.error`). -/
def format_response (netmiko_response : PyVal) : Except String Json :=
  match netmiko_response with
  | .str s => .ok (success_body s)
  | v => .error ("AttributeError: " ++ pyTypeName v ++ " object has no attribute split")

/-- An HTTP response: status code and JSON body.  Flask's bare
`jsonify(...)` return is status 200; the `except` arm returns 500. -/
structure HttpResponse where
  status : Nat
  body : Json

/-- Keys of a JSON object (empty for non-objects). -/
def jsonKeys : Json → List String
  | .obj fields => fields.map (fun field => field.1)
  | _ => []

/-- Whether a JSON body has a top-level field named `key`. -/
def hasKey (j : Json) (key : String) : Bool :=
  (jsonKeys j).contains key

/-- The 500 error response `jsonify({'error': str(e)}), 500` built by every
handler's `except` arm. -/
def error_response (e : String) : HttpResponse :=
  ⟨500, Json.obj [("error", Json.str e)]⟩

/-- Handler for `POST /network_interaction` (source lines 32-48): read
`command` from the body, run it via `send_netmiko_request`, return the
formatted output; any exception in that chain yields a 500 `{'error': ...}`
response. -/
def network_interaction (dev : PyVal → SshResult) (data : ReqData) : HttpResponse :=
  match pyGet data "command" with
  | .error e => error_response e
  | .ok command =>
    match format_response (.str (send_netmiko_request dev command)) with
    | .ok body => ⟨200, body⟩
    | .error e => error_response e

/-- The command list built by `configure_loopback` (source lines 62-67). -/
def config_commands (loopback_number ip_address : PyVal) : List String :=
  [ "interface Loopback" ++ pyStr loopback_number,
    "ip address " ++ pyStr ip_address,
    "commit",
    "exit" ]

/-- Handler for `POST /configure_loopback` (source lines 51-76). -/
def configure_loopback (dev : List String → SshResult) (data : ReqData) : HttpResponse :=
  match pyGet data "loopback_number" with
  | .error e => error_response e
  | .ok loopback_number =>
    match pyGet data "ip_address" with
    | .error e => error_response e
    | .ok ip_address =>
      match format_response (.str (send_netmiko_config dev
          (config_commands loopback_number ip_address))) with
      | .ok body => ⟨200, body⟩
      | .error e => error_response e

/-- The command list built by `delete_loopback` (source lines 89-93). -/
def delete_commands (loopback_number : PyVal) : List String :=
  [ "no interface Loopback" ++ pyStr loopback_number,
    "commit",
    "exit" ]

/-- Handler for `POST /delete_loopback` (source lines 79-102). -/
def delete_loopback (dev : List String → SshResult) (data : ReqData) : HttpResponse :=
  match pyGet data "loopback_number" with
  | .error e => error_response e
  | .ok loopback_number =>
    match format_response (.str (send_netmiko_config dev
        (delete_commands loopback_number))) with
    | .ok body => ⟨200, body⟩
    | .error e => error_response e

/-- Handler for `POST /device_interfaces` (source lines 105-115): reads no
body, always runs `show ip interface brief`. -/
def device_interfaces (dev : PyVal → SshResult) : HttpResponse :=
  match format_response (.str (send_netmiko_request dev
      (.str "show ip interface brief"))) with
  | .ok body => ⟨200, body⟩
  | .error e => error_response e

end Assignment

namespace Assignment

/-- Claim C1 (amended): when establishing the SSH session raises an
exception, the exception is caught inside the adapter and turned into the
text `Netmiko Error: ...`, so every endpoint returns HTTP 200 whose body
carries that text under `netmiko_response`; the body has no `error` field.
(The claim as frozen said the endpoints return 500 with an `error` field;
see the counterexample.) -/
theorem claim_C1 (msg : String) (fs : List (String × PyVal)) :
    network_interaction (fun _ => SshResult.raises msg) (ReqData.obj fs) =
      ⟨200, success_body ("Netmiko Error: " ++ msg)⟩ ∧
    configure_loopback (fun _ => SshResult.raises msg) (ReqData.obj fs) =
      ⟨200, success_body ("Netmiko Error: " ++ msg)⟩ ∧
    delete_loopback (fun _ => SshResult.raises msg) (ReqData.obj fs) =
      ⟨200, success_body ("Netmiko Error: " ++ msg)⟩ ∧
    device_interfaces (fun _ => SshResult.raises msg) =
      ⟨200, success_body ("Netmiko Error: " ++ msg)⟩ ∧
    hasKey (success_body ("Netmiko Error: " ++ msg)) "error" = false ∧
    hasKey (success_body ("Netmiko Error: " ++ msg)) "netmiko_response" = true :=
  ⟨rfl, rfl, rfl, rfl, rfl, rfl⟩

/-- Claim C1 is false as frozen: with an SSH attempt that raises
(authentication failure), `/network_interaction` returns status 200 (not
500), with a `netmiko_response` field and no `error` field. -/
theorem claim_C1_counterexample :
    (network_interaction (fun _ => SshResult.raises "Authentication to device failed")
        (ReqData.obj [("command", PyVal.str "show version")])).status = 200 ∧
    hasKey (network_interaction (fun _ => SshResult.raises "Authentication to device failed")
        (ReqData.obj [("command", PyVal.str "show version")])).body "error" = false ∧
    hasKey (network_interaction (fun _ => SshResult.raises "Authentication to device failed")
        (ReqData.obj [("command", PyVal.str "show version")])).body "netmiko_response" = true :=
  ⟨rfl, rfl, rfl⟩

/-- Claim C2 (amended): every request with a JSON-object body completes
with status 200 and a body whose single field is `netmiko_response` (not
`response`), on all four endpoints, whatever the device does. -/
theorem claim_C2 (devQ : PyVal → SshResult) (devC : List String → SshResult)
    (fs : List (String × PyVal)) :
    ((network_interaction devQ (ReqData.obj fs)).status = 200 ∧
      jsonKeys (network_interaction devQ (ReqData.obj fs)).body = ["netmiko_response"]) ∧
    ((configure_loopback devC (ReqData.obj fs)).status = 200 ∧
      jsonKeys (configure_loopback devC (ReqData.obj fs)).body = ["netmiko_response"]) ∧
    ((delete_loopback devC (ReqData.obj fs)).status = 200 ∧
      jsonKeys (delete_loopback devC (ReqData.obj fs)).body = ["netmiko_response"]) ∧
    ((device_interfaces devQ).status = 200 ∧
      jsonKeys (device_interfaces devQ).body = ["netmiko_response"]) :=
  ⟨⟨rfl, rfl⟩, ⟨rfl, rfl⟩, ⟨rfl, rfl⟩, ⟨rfl, rfl⟩⟩

/-- Claim C2 is false as frozen: a successful request's 200 body stores
its payload under `netmiko_response`, and has no `response` field. -/
theorem claim_C2_counterexample :
    (network_interaction (fun _ => SshResult.output "Cisco IOS XR Software")
        (ReqData.obj [("command", PyVal.str "show version")])).status = 200 ∧
    hasKey (network_interaction (fun _ => SshResult.output "Cisco IOS XR Software")
        (ReqData.obj [("command", PyVal.str "show version")])).body "response" = false ∧
    jsonKeys (network_interaction (fun _ => SshResult.output "Cisco IOS XR Software")
        (ReqData.obj [("command", PyVal.str "show version")])).body = ["netmiko_response"] :=
  ⟨rfl, rfl, rfl⟩

/-- Claim C3 (amended): a POST to `/network_interaction` whose JSON body
lacks the `command` field does not crash and does not return 500: the
missing field is read as `None`, handed to the device layer, and the
endpoint returns 200 with the formatted adapter output. -/
theorem claim_C3 (dev : PyVal → SshResult) (fs : List (String × PyVal))
    (h : fs.lookup "command" = Option.none) :
    network_interaction dev (ReqData.obj fs) =
      ⟨200, success_body (send_netmiko_request dev PyVal.none)⟩ := by
  simp [network_interaction, pyGet, h, format_response]

/-- Witness for C3 at a concrete body without a `command` field and a
concrete raising device. -/
theorem claim_C3_witness :
    (([("hostname", PyVal.str "r1")] : List (String × PyVal)).lookup "command" = Option.none) ∧
    network_interaction (fun _ => SshResult.raises "cannot execute None")
        (ReqData.obj [("hostname", PyVal.str "r1")]) =
      ⟨200, success_body (send_netmiko_request
        (fun _ => SshResult.raises "cannot execute None") PyVal.none)⟩ :=
  ⟨rfl, claim_C3 _ _ rfl⟩

/-- Claim C3 is false as frozen: with a JSON body lacking `command`, the
endpoint returns status 200, not 500 (the adapter catches the failure and
returns its text). -/
theorem claim_C3_counterexample :
    (network_interaction (fun _ => SshResult.raises "Connection to device timed-out")
        (ReqData.obj [("hostname", PyVal.str "r1")])).status = 200 :=
  rfl

/-- Claim C4: a connection, authentication, or command failure inside the
adapter is caught there and returned as the textual result string
`Netmiko Error: ...` (both for `send_netmiko_request` and
`send_netmiko_config`), so every handler still returns a response, with
status 200. -/
theorem claim_C4 (msg : String) (cmd : PyVal) (cmds : List String)
    (fs : List (String × PyVal)) :
    send_netmiko_request (fun _ => SshResult.raises msg) cmd = "Netmiko Error: " ++ msg ∧
    send_netmiko_config (fun _ => SshResult.raises msg) cmds = "Netmiko Error: " ++ msg ∧
    (network_interaction (fun _ => SshResult.raises msg) (ReqData.obj fs)).status = 200 ∧
    (configure_loopback (fun _ => SshResult.raises msg) (ReqData.obj fs)).status = 200 ∧
    (delete_loopback (fun _ => SshResult.raises msg) (ReqData.obj fs)).status = 200 ∧
    (device_interfaces (fun _ => SshResult.raises msg)).status = 200 :=
  ⟨rfl, rfl, rfl, rfl, rfl, rfl⟩

/-- Claim C5: `/configure_loopback` with integer `loopback_number` n and
string `ip_address` a builds exactly the four-element command sequence
`["interface Loopback{n}", "ip address {a}", "commit", "exit"]` in that
order and sends it to the device; in particular for n = 5,
a = "10.0.0.1". -/
theorem claim_C5 (dev : List String → SshResult) (n : Int) (a : String) :
    config_commands (PyVal.int n) (PyVal.str a) =
      ["interface Loopback" ++ toString n, "ip address " ++ a, "commit", "exit"] ∧
    configure_loopback dev
        (ReqData.obj [("loopback_number", PyVal.int n), ("ip_address", PyVal.str a)]) =
      ⟨200, success_body (send_netmiko_config dev
        ["interface Loopback" ++ toString n, "ip address " ++ a, "commit", "exit"])⟩ ∧
    config_commands (PyVal.int 5) (PyVal.str "10.0.0.1") =
      ["interface Loopback5", "ip address 10.0.0.1", "commit", "exit"] :=
  ⟨rfl, rfl, rfl⟩

/-- Claim C6: `/delete_loopback` with integer `loopback_number` n builds
exactly the three-element command sequence
`["no interface Loopback{n}", "commit", "exit"]` in that order and sends
it to the device; in particular for n = 5. -/
theorem claim_C6 (dev : List String → SshResult) (n : Int) :
    delete_commands (PyVal.int n) =
      ["no interface Loopback" ++ toString n, "commit", "exit"] ∧
    delete_loopback dev (ReqData.obj [("loopback_number", PyVal.int n)]) =
      ⟨200, success_body (send_netmiko_config dev
        ["no interface Loopback" ++ toString n, "commit", "exit"])⟩ ∧
    delete_commands (PyVal.int 5) = ["no interface Loopback5", "commit", "exit"] :=
  ⟨rfl, rfl, rfl⟩

/-- Claim C7: for every string input, the formatter returns exactly the
input's newline-split lines that are non-blank after stripping, each
stripped, in original order (a sublist of the stripped line list), with no
empty string in the output; `format_lines ""` and
`format_lines "   \n  \n"` are both empty. -/
theorem claim_C7 (s : String) :
    format_lines s = ((pySplitNl s).map pyStrip).filter (fun line => line != "") ∧
    (format_lines s).all (fun line => line != "") = true ∧
    List.Sublist (format_lines s) ((pySplitNl s).map pyStrip) ∧
    format_lines "" = [] ∧
    format_lines "   \n  \n" = [] := by
  refine ⟨rfl, ?_, ?_, rfl, rfl⟩
  · rw [List.all_eq_true]
    intro line hline
    exact (List.mem_filter.mp hline).2
  · exact List.filter_sublist _

/-- Claim C8: given a successful device query whose raw output is
`"Gi0/0/0/0   up   up\n\nGi0/0/0/1  down  down"`, `/device_interfaces`
returns 200 with body
`{"netmiko_response": ["Gi0/0/0/0   up   up", "Gi0/0/0/1  down  down"]}`. -/
theorem claim_C8 :
    device_interfaces
        (fun _ => SshResult.output "Gi0/0/0/0   up   up\n\nGi0/0/0/1  down  down") =
      ⟨200, Json.obj [("netmiko_response", Json.arr
        [Json.str "Gi0/0/0/0   up   up", Json.str "Gi0/0/0/1  down  down"])]⟩ :=
  rfl

/-- Claim C9 (amended): `format_response` is pure and total on string
input (it always returns a `netmiko_response` body), but on a non-string
argument (`None`, an int, a bool) the attribute access `.split` raises an
`AttributeError` instead of performing a no-crash conversion; in the
service, that exception would be caught by the route handler. -/
theorem claim_C9 (s : String) (n : Int) (b : Bool) :
    format_response (PyVal.str s) = Except.ok (success_body s) ∧
    format_response PyVal.none =
      Except.error "AttributeError: NoneType object has no attribute split" ∧
    format_response (PyVal.int n) =
      Except.error "AttributeError: int object has no attribute split" ∧
    format_response (PyVal.bool b) =
      Except.error "AttributeError: bool object has no attribute split" :=
  ⟨rfl, rfl, rfl, rfl⟩

/-- Claim C9 is false as frozen: on the non-string argument `None` the
formatter raises an `AttributeError` rather than performing a no-crash
string-to-lines conversion. -/
theorem claim_C9_counterexample :
    format_response PyVal.none =
      Except.error "AttributeError: NoneType object has no attribute split" :=
  rfl

/-- Claim C10: a POST to `/configure_loopback` or `/delete_loopback` whose
JSON object body is missing `loopback_number` and/or `ip_address` is not
rejected: each absent field reads as `None` and is interpolated into the
command text (`interface LoopbackNone`, `ip address None`), the full
command sequence is still sent to the device, and the endpoint returns
200 with the formatted adapter output.  The first two conjuncts cover
every object body at once (each field is looked up and defaults to
`None`); the remaining conjuncts spell out the bodies missing only
`loopback_number`, missing only `ip_address`, missing both, and a
`/delete_loopback` body that carries an (ignored) `ip_address`. -/
theorem claim_C10 (dev : List String → SshResult) (fs : List (String × PyVal))
    (n : Int) (a : String) :
    configure_loopback dev (ReqData.obj fs) =
      ⟨200, success_body (send_netmiko_config dev
        [ "interface Loopback" ++ pyStr ((fs.lookup "loopback_number").getD PyVal.none),
          "ip address " ++ pyStr ((fs.lookup "ip_address").getD PyVal.none),
          "commit", "exit" ])⟩ ∧
    delete_loopback dev (ReqData.obj fs) =
      ⟨200, success_body (send_netmiko_config dev
        [ "no interface Loopback" ++ pyStr ((fs.lookup "loopback_number").getD PyVal.none),
          "commit", "exit" ])⟩ ∧
    configure_loopback dev (ReqData.obj [("ip_address", PyVal.str a)]) =
      ⟨200, success_body (send_netmiko_config dev
        ["interface LoopbackNone", "ip address " ++ a, "commit", "exit"])⟩ ∧
    configure_loopback dev (ReqData.obj [("loopback_number", PyVal.int n)]) =
      ⟨200, success_body (send_netmiko_config dev
        ["interface Loopback" ++ toString n, "ip address None", "commit", "exit"])⟩ ∧
    configure_loopback dev (ReqData.obj []) =
      ⟨200, success_body (send_netmiko_config dev
        ["interface LoopbackNone", "ip address None", "commit", "exit"])⟩ ∧
    delete_loopback dev (ReqData.obj [("ip_address", PyVal.str a)]) =
      ⟨200, success_body (send_netmiko_config dev
        ["no interface LoopbackNone", "commit", "exit"])⟩ ∧
    delete_loopback dev (ReqData.obj []) =
      ⟨200, success_body (send_netmiko_config dev
        ["no interface LoopbackNone", "commit", "exit"])⟩ :=
  ⟨rfl, rfl, rfl, rfl, rfl, rfl, rfl⟩

end Assignment
